import Mathlib

/-!
Verification of the cached-fetch gateway and route handlers of the
roblox-api-server repository (src/server.js), via a shallow embedding.

Modelling conventions:
* Time is measured in milliseconds (`Date.now()`); the `ttl` argument of the
  gateway is in seconds, as in node-cache, so a stored entry's expiry is
  `now + ttl * 1000`.
* JSON documents are modelled by the inductive `Json`; `Option Json` stands
  for a JavaScript value that may be `undefined` (`none`).
* The network is an oracle: each outbound call's outcome is a `NetOutcome`
  parameter describing what axios delivers to the `try` block of
  `fetchFromRobloxAPI` (a resolved 2xx with decoded data, a rejection
  carrying a response, a timeout / connection failure rejection carrying
  only the request, or a setup error).
* The node-cache dependency (`cache = new NodeCache({stdTTL: 300})`) is
  modelled from its documented behaviour: `set(k, v, ttl)` stores expiry
  `Date.now() + ttl * 1000`, except that `ttl = 0` means the entry never
  expires; an entry is expired iff its expiry is nonzero and strictly below
  the current time; `set` for an existing key replaces the entry.
-/

/-- JSON values (the decoded bodies that axios hands to the server code). -/
inductive Json where
  | null : Json
  | bool (b : Bool) : Json
  | num (n : Int) : Json
  | str (s : String) : Json
  | arr (elts : List Json) : Json
  | obj (fields : List (String × Json)) : Json

/-- A cache entry of the node-cache table: key, stored value, absolute expiry
in milliseconds (`0` means the entry never expires, node-cache's encoding of
an unlimited ttl). -/
structure CacheEntry where
  key : String
  value : Json
  expiry : Nat

/-- The in-memory cache table (`const cache = new NodeCache({ stdTTL: 300 })`,
src/server.js line 17). -/
abbrev Cache := List CacheEntry

/-- node-cache's liveness check: an entry is expired iff its expiry is nonzero
and strictly less than the current time. -/
def entryLive (e : CacheEntry) (now : Nat) : Bool :=
  e.expiry == 0 || now ≤ e.expiry

/-- node-cache lookup (`cache.has` / `cache.get`): the stored value of the
entry for `k`, provided it has not expired at time `now`. -/
def ncLookup (c : Cache) (k : String) (now : Nat) : Option Json :=
  match c.find? (fun e => e.key == k) with
  | some e => if entryLive e now then some e.value else none
  | none => none

/-- node-cache `set(k, v, ttl)`: replaces any existing entry for `k` with a
fresh entry whose expiry is `now + ttl * 1000`; a ttl of `0` stores the entry
with no expiry (node-cache's documented "0 = unlimited"). -/
def ncSet (c : Cache) (k : String) (v : Json) (ttl : Nat) (now : Nat) : Cache :=
  ⟨k, v, if ttl == 0 then 0 else now + ttl * 1000⟩ :: c.filter (fun e => !(e.key == k))

/-- JavaScript truthiness of the `cacheKey` argument (`if (cacheKey && ...)`,
src/server.js lines 99 and 113): `null` and the empty string are falsy. -/
def jsTruthyKey : Option String → Bool
  | none => false
  | some s => !s.isEmpty

/-- An outbound HTTP request as issued by the gateway (axios.get config,
src/server.js lines 103-108). -/
structure OutboundReq where
  url : String
  timeoutMs : Nat
  userAgent : String

/-- What axios delivers for the single outbound call: a resolved 2xx response
with decoded data, a rejection with a response (non-2xx status), a rejection
with only a request (timeout or connection failure), or a setup error. -/
inductive NetOutcome where
  | success (data : Json) : NetOutcome
  | httpError (status : Nat) (statusText : String) : NetOutcome
  | timeout : NetOutcome
  | connectFailure : NetOutcome
  | setupError (msg : String) : NetOutcome

/-- Whether the outcome is a failure (axios rejects). -/
def netFails : NetOutcome → Bool
  | .success _ => false
  | _ => true

/-- The message of the `Error` thrown by the catch block of
`fetchFromRobloxAPI` (src/server.js lines 118-126): a rejection carrying a
response maps to the status-bearing message; a rejection carrying only a
request (which is what axios produces both for timeouts and for connection
failures) maps to the fixed connection message; anything else to the generic
request-error message. -/
def caughtError : NetOutcome → String
  | .httpError status statusText =>
      "Roblox API error: " ++ toString status ++ " - " ++ statusText
  | .timeout => "Failed to connect to Roblox API"
  | .connectFailure => "Failed to connect to Roblox API"
  | .setupError msg => "Request error: " ++ msg
  | .success _ => ""

/-- The result the awaited axios call contributes to the gateway: the decoded
data on success, otherwise the thrown error message. -/
def axiosOutcome : NetOutcome → Except String Json
  | .success d => .ok d
  | e => .error (caughtError e)

/-- Result of one gateway call: the returned value or thrown error, the cache
table afterwards, and the list of outbound requests performed. -/
structure FetchResult where
  result : Except String Json
  cache : Cache
  calls : List OutboundReq

/-- The cache-miss path of the gateway (src/server.js lines 103-126): one
outbound GET with a 10000 ms timeout and the fixed `User-Agent` header; on
success the data is cached when a truthy `cacheKey` was supplied and then
returned; on failure the translated error is thrown and the cache is left
untouched. -/
def fetchNetwork (net : NetOutcome) (now : Nat) (url : String)
    (cacheKey : Option String) (ttl : Nat) (c : Cache) : FetchResult :=
  let req : OutboundReq := ⟨url, 10000, "RobloxAPI/1.0"⟩
  match net with
  | .success data =>
      let c2 := if jsTruthyKey cacheKey then ncSet c (cacheKey.getD "") data ttl now else c
      ⟨.ok data, c2, [req]⟩
  | e => ⟨.error (caughtError e), c, [req]⟩

/-- The gateway `fetchFromRobloxAPI(url, cacheKey = null, ttl = 300)`
(src/server.js lines 96-127): if a truthy cache key is supplied and a live
entry exists, return it with no outbound call; otherwise perform the single
outbound call. -/
def fetchFromRobloxAPI (net : NetOutcome) (now : Nat) (url : String)
    (cacheKey : Option String) (ttl : Nat) (c : Cache) : FetchResult :=
  if jsTruthyKey cacheKey then
    match ncLookup c (cacheKey.getD "") now with
    | some v => ⟨.ok v, c, []⟩
    | none => fetchNetwork net now url cacheKey ttl c
  else
    fetchNetwork net now url cacheKey ttl c

/-- A call of the gateway with the `ttl` argument omitted: the JavaScript
default parameter `ttl = 300` applies. -/
def fetchDefault (net : NetOutcome) (now : Nat) (url : String)
    (cacheKey : Option String) (c : Cache) : FetchResult :=
  fetchFromRobloxAPI net now url cacheKey 300 c

/-- Cache tables reachable by the program: the table starts empty and is
modified only by gateway calls. -/
inductive Reach : Cache → Prop where
  | init : Reach []
  | step (net : NetOutcome) (now : Nat) (url : String) (ck : Option String)
      (ttl : Nat) {c : Cache} (h : Reach c) :
      Reach (fetchFromRobloxAPI net now url ck ttl c).cache

/-- The per-key uniqueness invariant of the cache table. -/
def NodupKeys (c : Cache) : Prop :=
  (c.map (·.key)).Nodup

/-! ### Route-handler layer

The handlers are modelled over the same oracle style: `Math.random()` draws
come from an indexed stream of rationals in [0,1), the clock's ISO string is
a parameter, and each upstream call's outcome is a `NetOutcome`. -/

/-- `parseInt` on a route parameter that passed the `isNumeric` validator
(integer digit strings; the general parseInt prefix-parsing is not needed for
validated input). -/
def jsParseInt (s : String) : Int :=
  (s.toInt?).getD 0

/-- The five shapes of response body the server produces: the `sendResponse`
envelope (src/server.js lines 75-82), the `sendError` envelope (lines 85-93,
also used by the 404 handler at line 541 and the global error handler at line
559), the 401 auth-failure body (lines 50-54), the 400 validation-failure
body (lines 64-69), and the rate-limiter's configured message (lines 28-31).
In `err`, `details` is `none` when the caller passed `undefined` (dropped by
JSON.stringify) and `some Json.null` for the default `null`. -/
inductive ServerReply where
  | ok (data : Json) (message : String) (now : String) : ServerReply
  | err (status : Nat) (message : String) (code : String)
      (details : Option Json) (now : String) : ServerReply
  | authFailure : ServerReply
  | validationFailure (details : Json) : ServerReply
  | rateLimited : ServerReply

/-- The JSON body sent for each reply site, fields in source order. -/
def replyBody : ServerReply → List (String × Json)
  | .ok data message now =>
      [("success", .bool true), ("message", .str message), ("data", data),
        ("timestamp", .str now)]
  | .err _ message code details now =>
      [("success", .bool false), ("error", .str message), ("code", .str code)]
        ++ (match details with
            | some dj => [("details", dj)]
            | none => [])
        ++ [("timestamp", .str now)]
  | .authFailure =>
      [("success", .bool false), ("error", .str "Invalid or missing API key"),
        ("code", .str "INVALID_API_KEY")]
  | .validationFailure details =>
      [("success", .bool false), ("error", .str "Validation failed"),
        ("code", .str "VALIDATION_ERROR"), ("details", details)]
  | .rateLimited =>
      [("error", .str "Too many requests from this IP, please try again later."),
        ("code", .str "RATE_LIMIT_EXCEEDED")]

/-- Field lookup in a response body. -/
def bodyGet (body : List (String × Json)) (f : String) : Option Json :=
  (body.find? (fun p => p.1 == f)).map (fun p => p.2)

/-- Which envelope fields are present in each reply site's body. -/
def EnvelopeSpec : ServerReply → Prop
  | .ok data message now =>
      bodyGet (replyBody (.ok data message now)) "success" = some (.bool true) ∧
      bodyGet (replyBody (.ok data message now)) "message" = some (.str message) ∧
      bodyGet (replyBody (.ok data message now)) "data" = some data ∧
      bodyGet (replyBody (.ok data message now)) "timestamp" = some (.str now)
  | .err status message code details now =>
      bodyGet (replyBody (.err status message code details now)) "success"
          = some (.bool false) ∧
      bodyGet (replyBody (.err status message code details now)) "error"
          = some (.str message) ∧
      bodyGet (replyBody (.err status message code details now)) "code"
          = some (.str code) ∧
      bodyGet (replyBody (.err status message code details now)) "timestamp"
          = some (.str now)
  | .authFailure =>
      bodyGet (replyBody .authFailure) "success" = some (.bool false) ∧
      bodyGet (replyBody .authFailure) "error"
          = some (.str "Invalid or missing API key") ∧
      bodyGet (replyBody .authFailure) "code" = some (.str "INVALID_API_KEY") ∧
      bodyGet (replyBody .authFailure) "timestamp" = none
  | .validationFailure details =>
      bodyGet (replyBody (.validationFailure details)) "success"
          = some (.bool false) ∧
      bodyGet (replyBody (.validationFailure details)) "error"
          = some (.str "Validation failed") ∧
      bodyGet (replyBody (.validationFailure details)) "code"
          = some (.str "VALIDATION_ERROR") ∧
      bodyGet (replyBody (.validationFailure details)) "timestamp" = none
  | .rateLimited =>
      bodyGet (replyBody .rateLimited) "success" = none ∧
      bodyGet (replyBody .rateLimited) "error"
          = some (.str "Too many requests from this IP, please try again later.") ∧
      bodyGet (replyBody .rateLimited) "code" = some (.str "RATE_LIMIT_EXCEEDED") ∧
      bodyGet (replyBody .rateLimited) "timestamp" = none

/-- Result of one route-handler run: the reply sent, the cache table and the
outbound requests performed, and whether the mock-data catch branch ran. -/
structure HandlerOut where
  response : ServerReply
  cache : Cache
  calls : List OutboundReq
  usedFallback : Bool

/-- The mock-asset payload of GET /asset/:assetId (src/server.js lines
371-391); `rand i` is the i-th `Math.random()` draw. -/
def assetBody (assetId : String) (rand : Nat → ℚ) (nowIso : String) : Json :=
  .obj [("assetId", .num (jsParseInt assetId)),
        ("name", .str ("Asset " ++ assetId)),
        ("description", .str "A Roblox asset"),
        ("assetType", .obj [("id", .num 1), ("name", .str "T-Shirt")]),
        ("creator", .obj [("id", .num 1), ("name", .str "Creator"),
          ("type", .str "User")]),
        ("price", .num (Rat.floor (rand 0 * 1000))),
        ("isLimited", .bool (decide (rand 1 > 4/5))),
        ("isLimitedUnique", .bool (decide (rand 2 > 19/20))),
        ("remaining", .num (Rat.floor (rand 3 * 100))),
        ("sales", .num (Rat.floor (rand 4 * 10000))),
        ("created", .str "2021-01-01T00:00:00.000Z"),
        ("updated", .str nowIso)]

/-- The GET /asset/:assetId handler (src/server.js lines 362-396): after
validation it only synthesizes the mock payload and sends it. -/
def assetHandler (assetId : String) (rand : Nat → ℚ) (nowIso : String)
    (c : Cache) : HandlerOut :=
  ⟨.ok (assetBody assetId rand nowIso) "Success" nowIso, c, [], false⟩

/-- `parseInt(req.query.limit) || 50` (src/server.js line 479): an absent
parameter gives NaN, hence 50; a zero value is falsy, hence 50. -/
def jsLimit : Option Nat → Nat
  | none => 50
  | some n => if n = 0 then 50 else n

/-- One leaderboard entry (src/server.js lines 482-491); entry `i` consumes
draws `3*i`, `3*i+1` and `3*i+2`. -/
def leaderboardEntry (rand : Nat → ℚ) (limit i : Nat) : Json :=
  .obj [("rank", .num (i + 1)),
        ("player", .obj [("id", .num (Rat.floor (rand (3*i) * 1000000))),
          ("username", .str ("Player" ++ toString (i+1))),
          ("displayName", .str ("Top Player " ++ toString (i+1)))]),
        ("score", .num (Rat.floor (rand (3*i+1) * 1000000) + (limit - i) * 1000)),
        ("avatarThumbnail",
          .str ("https://www.roblox.com/headshot-thumbnail/image?userId="
            ++ toString (Rat.floor (rand (3*i+2) * 1000000))
            ++ "&width=150&height=150"))]

/-- The mock-leaderboard payload of GET /leaderboard/:gameId (src/server.js
lines 482-498). -/
def leaderboardBody (gameId : String) (limitQ : Option Nat) (rand : Nat → ℚ)
    (nowIso : String) : Json :=
  .obj [("gameId", .num (jsParseInt gameId)),
        ("leaderboard",
          .arr ((List.range (jsLimit limitQ)).map
            (leaderboardEntry rand (jsLimit limitQ)))),
        ("totalEntries", .num (jsLimit limitQ)),
        ("lastUpdated", .str nowIso)]

/-- The GET /leaderboard/:gameId handler (src/server.js lines 471-503). -/
def leaderboardHandler (gameId : String) (limitQ : Option Nat)
    (rand : Nat → ℚ) (nowIso : String) (c : Cache) : HandlerOut :=
  ⟨.ok (leaderboardBody gameId limitQ rand nowIso) "Success" nowIso, c, [], false⟩

/-- JavaScript runtime errors raised by expression evaluation. -/
inductive JsErr where
  | typeError : JsErr

/-- JavaScript property read `v.f` on a defined, non-null value: objects
yield the field, arrays and strings expose `length`, anything else yields
`undefined` (`none`). -/
def jsField : Json → String → Option Json
  | .obj fields, f => (fields.find? (fun p => p.1 == f)).map (fun p => p.2)
  | .arr elts, f => if f = "length" then some (.num elts.length) else none
  | .str s, f => if f = "length" then some (.num s.length) else none
  | _, _ => none

/-- JavaScript property read on a possibly-undefined value: reading a member
of `undefined` or of `null` throws a TypeError. -/
def jsAccess : Option Json → String → Except JsErr (Option Json)
  | none, _ => .error .typeError
  | some .null, _ => .error .typeError
  | some v, f => .ok (jsField v f)

/-- JavaScript truthiness of a possibly-undefined value. -/
def jsTruthy : Option Json → Bool
  | none => false
  | some .null => false
  | some (.bool b) => b
  | some (.num n) => !(n == 0)
  | some (.str s) => !s.isEmpty
  | some (.arr _) => true
  | some (.obj _) => true

/-- JavaScript `x > 0` on the result of a property read, with ToNumber
coercion for numbers, booleans and integer-literal strings; the remaining
coercions (fractional strings, arrays, objects) are unreachable for the
`.length` reads this models and map to the NaN comparison, which is false. -/
def jsGTzero : Option Json → Bool
  | some (.num n) => decide (0 < n)
  | some (.bool b) => b
  | some (.str s) =>
      match s.toInt? with
      | some n => decide (0 < n)
      | none => false
  | _ => false

/-- JavaScript indexing `v[i]` on a defined value. -/
def jsIndex : Option Json → Nat → Option Json
  | some (.arr elts), i => elts.get? i
  | some (.str s), i => (s.toList.get? i).map (fun ch => .str (String.singleton ch))
  | some (.obj fields), i =>
      (fields.find? (fun p => p.1 == toString i)).map (fun p => p.2)
  | _, _ => none

/-- A JavaScript object literal whose field values may be `undefined`:
JSON.stringify drops the undefined-valued fields. -/
def mkObj (fields : List (String × Option Json)) : Json :=
  .obj (fields.filterMap (fun p => p.2.map (fun v => (p.1, v))))

/-- Lookup in an object-literal description, skipping undefined-valued
fields. -/
def lookupDrop : List (String × Option Json) → String → Option Json
  | [], _ => none
  | (k, v) :: rest, f =>
      if (k == f) && v.isSome then v else lookupDrop rest f

/-- The fallback avatar URL of the player handler (src/server.js line 167). -/
def defaultThumb (userId : String) : String :=
  "https://www.roblox.com/headshot-thumbnail/image?userId=" ++ userId

/-- The mock player payload of the catch branch (src/server.js lines
183-193); the single draw feeds friendsCount. -/
def mockPlayerBody (userId : String) (randQ : ℚ) : Json :=
  .obj [("userId", .num (jsParseInt userId)),
        ("username", .str ("Player" ++ userId)),
        ("displayName", .str ("Player" ++ userId)),
        ("description", .str "A Roblox player"),
        ("created", .str "2020-01-01T00:00:00.000Z"),
        ("isBanned", .bool false),
        ("friendsCount", .num (Rat.floor (randQ * 1000))),
        ("avatarThumbnail",
          .str ("https://www.roblox.com/headshot-thumbnail/image?userId="
            ++ userId ++ "&width=150&height=150")),
        ("hasVerifiedBadge", .bool false)]

/-- The success-path response construction of the player handler
(src/server.js lines 164-179), with JavaScript evaluation semantics: a
rejected settled promise selects the substitute (0, default thumbnail); a
fulfilled one has its value's members read, which throws a TypeError on an
unexpectedly shaped value; `||` keeps the left value when truthy. -/
def buildPlayerBody (userId : String) (userInfo : Json)
    (friendsRes avatarRes : Except String Json) : Except JsErr Json := do
  let friendsCount ←
    match friendsRes with
    | .ok v => jsAccess (some v) "count"
    | .error _ => pure (some (Json.num 0))
  let avatarThumbnail ←
    match avatarRes with
    | .error _ => pure (some (Json.str (defaultThumb userId)))
    | .ok v => do
        let d ← jsAccess (some v) "data"
        let len ← jsAccess d "length"
        if jsGTzero len then
          jsAccess (jsIndex d 0) "imageUrl"
        else
          pure (some (Json.str (defaultThumb userId)))
  let dn ← jsAccess (some userInfo) "displayName"
  let username ←
    if jsTruthy dn then pure dn else jsAccess (some userInfo) "name"
  let description ← jsAccess (some userInfo) "description"
  let created ← jsAccess (some userInfo) "created"
  let isBanned ← jsAccess (some userInfo) "isBanned"
  let hasVerifiedBadge ← jsAccess (some userInfo) "hasVerifiedBadge"
  pure (mkObj
    [("userId", some (.num (jsParseInt userId))),
     ("username", username),
     ("displayName", dn),
     ("description",
       if jsTruthy description then description else some (.str "")),
     ("created", created),
     ("isBanned", if jsTruthy isBanned then isBanned else some (.bool false)),
     ("friendsCount", friendsCount),
     ("avatarThumbnail", avatarThumbnail),
     ("hasVerifiedBadge",
       if jsTruthy hasVerifiedBadge then hasVerifiedBadge
       else some (.bool false))])

/-- The GET /player/:userId handler (src/server.js lines 142-199): the main
fetch is cached under player_<userId>; the two auxiliary fetches run under
Promise.allSettled with no cache key; any error thrown inside the inner try —
a failed main fetch or a TypeError while reading the settled values — lands
in the catch that sends the mock payload. -/
def playerHandler (netMain netFriends netAvatar : NetOutcome) (now : Nat)
    (userId : String) (randQ : ℚ) (nowIso : String) (c : Cache) : HandlerOut :=
  let r1 := fetchFromRobloxAPI netMain now
    ("https://users.roblox.com/v1/users/" ++ userId)
    (some ("player_" ++ userId)) 300 c
  match r1.result with
  | .error _ =>
      ⟨.ok (mockPlayerBody userId randQ) "Success" nowIso, r1.cache, r1.calls, true⟩
  | .ok userInfo =>
      let rF := fetchFromRobloxAPI netFriends now
        ("https://friends.roblox.com/v1/users/" ++ userId ++ "/friends/count")
        none 300 r1.cache
      let rA := fetchFromRobloxAPI netAvatar now
        ("https://thumbnails.roblox.com/v1/users/avatar-headshot?userIds="
          ++ userId ++ "&size=150x150&format=Png") none 300 rF.cache
      match buildPlayerBody userId userInfo rF.result rA.result with
      | .ok body =>
          ⟨.ok body "Success" nowIso, rA.cache,
            r1.calls ++ rF.calls ++ rA.calls, false⟩
      | .error _ =>
          ⟨.ok (mockPlayerBody userId randQ) "Success" nowIso, rA.cache,
            r1.calls ++ rF.calls ++ rA.calls, true⟩

/-! ### Helper lemmas about the gateway's cache updates -/

lemma fetchNetwork_cache (net : NetOutcome) (now : Nat) (url : String)
    (ck : Option String) (ttl : Nat) (c : Cache) :
    (fetchNetwork net now url ck ttl c).cache = c ∨
      ∃ k d, ck = some k ∧ k ≠ "" ∧
        (fetchNetwork net now url ck ttl c).cache = ncSet c k d ttl now := by
  cases net with
  | success d =>
    by_cases h : jsTruthyKey ck = true
    · refine .inr ⟨ck.getD "", d, ?_, ?_, ?_⟩
      · cases ck with
        | none => simp [jsTruthyKey] at h
        | some s => simp
      · cases ck with
        | none => simp [jsTruthyKey] at h
        | some s =>
          intro hs
          subst hs
          exact absurd h (by decide)
      · simp [fetchNetwork, h]
    · exact .inl (by simp [fetchNetwork, h])
  | httpError s st => exact .inl rfl
  | timeout => exact .inl rfl
  | connectFailure => exact .inl rfl
  | setupError m => exact .inl rfl

lemma fetch_cache_cases (net : NetOutcome) (now : Nat) (url : String)
    (ck : Option String) (ttl : Nat) (c : Cache) :
    (fetchFromRobloxAPI net now url ck ttl c).cache = c ∨
      ∃ k d, ck = some k ∧ k ≠ "" ∧
        (fetchFromRobloxAPI net now url ck ttl c).cache = ncSet c k d ttl now := by
  unfold fetchFromRobloxAPI
  by_cases h : jsTruthyKey ck = true
  · simp only [h, if_true]
    cases hl : ncLookup c (ck.getD "") now with
    | some v => exact .inl rfl
    | none => exact fetchNetwork_cache net now url ck ttl c
  · simp only [Bool.not_eq_true] at h
    simp only [h, Bool.false_eq_true, if_false]
    exact fetchNetwork_cache net now url ck ttl c

lemma mem_ncSet {e : CacheEntry} {c : Cache} {k : String} {v : Json}
    {ttl now : Nat} (h : e ∈ ncSet c k v ttl now) : e.key = k ∨ e ∈ c := by
  rcases List.mem_cons.1 h with h1 | h1
  · exact .inl (by rw [h1])
  · exact .inr (List.mem_of_mem_filter h1)

/-- In every reachable cache table, no entry has the empty string as its key
(the gateway's truthiness guard prevents a write under a falsy key). -/
lemma reach_keys_nonempty {c : Cache} (hc : Reach c) :
    ∀ e ∈ c, e.key ≠ "" := by
  induction hc with
  | init => intro e he; cases he
  | step net now url ck ttl h ih =>
    intro e he
    rcases fetch_cache_cases net now url ck ttl _ with hcase | ⟨k, d, _, hk, hcase⟩
    · rw [hcase] at he
      exact ih e he
    · rw [hcase] at he
      rcases mem_ncSet he with h1 | h1
      · exact h1 ▸ hk
      · exact ih e h1

lemma nodupKeys_ncSet {c : Cache} (h : NodupKeys c) (k : String) (v : Json)
    (ttl now : Nat) : NodupKeys (ncSet c k v ttl now) := by
  unfold NodupKeys ncSet
  simp only [List.map_cons, List.nodup_cons]
  constructor
  · intro hk
    rcases List.mem_map.1 hk with ⟨e, he, hek⟩
    have := List.of_mem_filter he
    simp only [Bool.not_eq_eq_eq_not, Bool.not_true, beq_eq_false_iff_ne] at this
    exact this hek
  · exact List.Nodup.sublist (List.Sublist.map _ (List.filter_sublist c)) h

/-- Every reachable cache table holds at most one entry per key. -/
lemma reach_nodupKeys {c : Cache} (hc : Reach c) : NodupKeys c := by
  induction hc with
  | init => exact List.nodup_nil
  | step net now url ck ttl h ih =>
    rcases fetch_cache_cases net now url ck ttl _ with hcase | ⟨k, d, _, _, hcase⟩
    · exact hcase ▸ ih
    · exact hcase ▸ nodupKeys_ncSet ih k d ttl now

/-- A `set` under key `a` does not disturb the lookup of a different key. -/
lemma ncLookup_ncSet_ne {a b : String} (hne : b ≠ a) (c : Cache) (v : Json)
    (ttl now now2 : Nat) :
    ncLookup (ncSet c a v ttl now) b now2 = ncLookup c b now2 := by
  unfold ncSet ncLookup
  have hab : (a == b) = false := beq_eq_false_iff_ne.2 (fun h => hne h.symm)
  simp only [List.find?_cons, hab]
  congr 1
  induction c with
  | nil => simp
  | cons e rest ih =>
    by_cases hea : (e.key == a) = true
    · have heb : (e.key == b) = false := by
        refine beq_eq_false_iff_ne.2 ?_
        intro h
        exact hne (h.symm.trans (beq_iff_eq.1 hea))
      simp only [List.filter_cons, hea, Bool.not_true, Bool.false_eq_true, if_false,
        List.find?_cons, heb]
      exact ih
    · simp only [Bool.not_eq_true] at hea
      simp only [List.filter_cons, hea, Bool.not_false, if_true, List.find?_cons]
      cases heb : (e.key == b) with
      | true => rfl
      | false => exact ih

lemma fetchNetwork_cache_of_fails {net : NetOutcome} {now : Nat} {url : String}
    {ck : Option String} {ttl : Nat} {c : Cache} (h : netFails net = true) :
    (fetchNetwork net now url ck ttl c).cache = c := by
  cases net with
  | success d => simp [netFails] at h
  | httpError s st => rfl
  | timeout => rfl
  | connectFailure => rfl
  | setupError m => rfl

lemma fetch_ext_of_lookup_eq {c1 c2 : Cache} (net : NetOutcome) (now : Nat)
    (url : String) (k : String) (ttl : Nat)
    (h : ncLookup c1 k now = ncLookup c2 k now) :
    (fetchFromRobloxAPI net now url (some k) ttl c1).result
        = (fetchFromRobloxAPI net now url (some k) ttl c2).result ∧
      (fetchFromRobloxAPI net now url (some k) ttl c1).calls
        = (fetchFromRobloxAPI net now url (some k) ttl c2).calls := by
  unfold fetchFromRobloxAPI
  by_cases ht : jsTruthyKey (some k) = true
  · simp only [ht, if_true, Option.getD_some, h]
    cases ncLookup c2 k now with
    | some v => exact ⟨rfl, rfl⟩
    | none => unfold fetchNetwork; cases net <;> exact ⟨rfl, rfl⟩
  · simp only [Bool.not_eq_true] at ht
    simp only [ht, Bool.false_eq_true, if_false]
    unfold fetchNetwork
    cases net <;> exact ⟨rfl, rfl⟩

/-! ### Claim theorems -/

/-- C1: a gateway call whose cache key has a live (non-expired) entry in the
reachable cache table returns that entry's value, performs no outbound HTTP
call, and leaves the cache table unchanged, regardless of the target URL and
of whatever the network would have answered. -/
theorem cache_hit_is_pure_read (net : NetOutcome) (now : Nat) (url : String)
    (k : String) (ttl : Nat) (c : Cache) (v : Json) (hc : Reach c)
    (hv : ncLookup c k now = some v) :
    fetchFromRobloxAPI net now url (some k) ttl c = ⟨.ok v, c, []⟩ := by
  have hk : k ≠ "" := by
    cases hf : c.find? (fun e => e.key == k) with
    | none => rw [ncLookup, hf] at hv; cases hv
    | some e =>
      have hp := List.find?_some hf
      simp only [beq_iff_eq] at hp
      have hem : e ∈ c := List.mem_of_find?_eq_some hf
      exact hp ▸ reach_keys_nonempty hc e hem
  have ht : jsTruthyKey (some k) = true := by
    simp only [jsTruthyKey, Bool.not_eq_true']
    rw [Bool.eq_false_iff]
    intro hT
    exact hk ((String.isEmpty_iff k).1 hT)
  unfold fetchFromRobloxAPI
  simp only [ht, if_true, Option.getD_some, hv]

/-- Witness for C1: after one successful cached fetch for key `k`, a later
call for `k` with a different target and a network that would time out still
returns the first call's value with no outbound request. -/
theorem cache_hit_is_pure_read_witness :
    fetchFromRobloxAPI .timeout 100 "https://other" (some "k") 60
        (fetchFromRobloxAPI (.success (Json.num 1)) 0 "https://u" (some "k") 300 []).cache
      = ⟨.ok (Json.num 1),
          (fetchFromRobloxAPI (.success (Json.num 1)) 0 "https://u" (some "k") 300 []).cache,
          []⟩ :=
  cache_hit_is_pure_read .timeout 100 "https://other" "k" 60 _ (Json.num 1)
    (Reach.step (.success (Json.num 1)) 0 "https://u" (some "k") 300 Reach.init) rfl

/-- C2: a gateway call whose outbound request fails in any way (non-2xx
response, timeout, connection failure, request setup error) leaves the cache
table exactly as it was: no entry is created or overwritten. -/
theorem failed_fetch_no_cache_write (net : NetOutcome) (now : Nat)
    (url : String) (ck : Option String) (ttl : Nat) (c : Cache)
    (h : netFails net = true) :
    (fetchFromRobloxAPI net now url ck ttl c).cache = c := by
  unfold fetchFromRobloxAPI
  by_cases ht : jsTruthyKey ck = true
  · simp only [ht, if_true]
    cases hl : ncLookup c (ck.getD "") now with
    | some v => rfl
    | none => exact fetchNetwork_cache_of_fails h
  · simp only [Bool.not_eq_true] at ht
    simp only [ht, Bool.false_eq_true, if_false]
    exact fetchNetwork_cache_of_fails h

/-- Witness for C2: a timed-out fetch for key `k` against a nonempty cache
table leaves the table untouched. -/
theorem failed_fetch_no_cache_write_witness :
    (fetchFromRobloxAPI .timeout 50 "https://u" (some "k") 300
        [⟨"other", Json.num 3, 99000⟩]).cache = [⟨"other", Json.num 3, 99000⟩] :=
  failed_fetch_no_cache_write .timeout 50 "https://u" (some "k") 300
    [⟨"other", Json.num 3, 99000⟩] rfl

/-- C6: a gateway call without a cache key neither reads nor writes the cache
table: whatever the cache holds, the call performs exactly one outbound
request and returns the plain network outcome, and two consecutive keyless
calls perform two outbound requests. -/
theorem keyless_fetch_bypasses_cache (net net2 : NetOutcome) (now now2 : Nat)
    (url url2 : String) (ttl ttl2 : Nat) (c : Cache) :
    fetchFromRobloxAPI net now url none ttl c
        = ⟨axiosOutcome net, c, [⟨url, 10000, "RobloxAPI/1.0"⟩]⟩ ∧
      ((fetchFromRobloxAPI net now url none ttl c).calls ++
        (fetchFromRobloxAPI net2 now2 url2 none ttl2
          (fetchFromRobloxAPI net now url none ttl c).cache).calls).length = 2 := by
  constructor
  · unfold fetchFromRobloxAPI fetchNetwork
    cases net <;> rfl
  · unfold fetchFromRobloxAPI fetchNetwork
    cases net <;> cases net2 <;> rfl

/-- C7: over every sequence of gateway calls starting from the empty table,
the cache holds at most one entry per key (a fresh set replaces the old
entry), and a fetch under key `a` never influences a subsequent fetch under a
different key `b`: the second call's result and outbound requests are the
same as if the first call had never happened. -/
theorem cache_key_isolation {c : Cache} (hc : Reach c) :
    NodupKeys c ∧
      ∀ (net net2 : NetOutcome) (now now2 : Nat) (url1 url2 : String)
        (a b : String) (ttl ttl2 : Nat), a ≠ b →
        (fetchFromRobloxAPI net2 now2 url2 (some b) ttl2
            (fetchFromRobloxAPI net now url1 (some a) ttl c).cache).result
          = (fetchFromRobloxAPI net2 now2 url2 (some b) ttl2 c).result ∧
        (fetchFromRobloxAPI net2 now2 url2 (some b) ttl2
            (fetchFromRobloxAPI net now url1 (some a) ttl c).cache).calls
          = (fetchFromRobloxAPI net2 now2 url2 (some b) ttl2 c).calls := by
  refine ⟨reach_nodupKeys hc, ?_⟩
  intro net net2 now now2 url1 url2 a b ttl ttl2 hab
  rcases fetch_cache_cases net now url1 (some a) ttl c with hcase | ⟨k, d, hk, _, hcase⟩
  · rw [hcase]
    exact ⟨rfl, rfl⟩
  · rw [hcase]
    have hk' : k = a := by injection hk with h; exact h.symm
    subst hk'
    exact fetch_ext_of_lookup_eq net2 now2 url2 b ttl2
      (ncLookup_ncSet_ne (fun h => hab h.symm) c d ttl now now2)

/-- Witness for C7 at a concrete one-entry reachable table and the distinct
keys "k" and "j". -/
theorem cache_key_isolation_witness :
    NodupKeys (fetchFromRobloxAPI (.success (Json.num 2)) 3 "https://a"
        (some "k") 300 []).cache ∧
      (fetchFromRobloxAPI .connectFailure 7 "https://b" (some "j") 300
          (fetchFromRobloxAPI (.success (Json.num 5)) 5 "https://a2" (some "k") 300
            (fetchFromRobloxAPI (.success (Json.num 2)) 3 "https://a"
              (some "k") 300 []).cache).cache).result
        = (fetchFromRobloxAPI .connectFailure 7 "https://b" (some "j") 300
            (fetchFromRobloxAPI (.success (Json.num 2)) 3 "https://a"
              (some "k") 300 []).cache).result := by
  have h := cache_key_isolation
    (Reach.step (.success (Json.num 2)) 3 "https://a" (some "k") 300 Reach.init)
  exact ⟨h.1,
    (h.2 (.success (Json.num 5)) .connectFailure 5 7 "https://a2" "https://b"
      "k" "j" 300 300 (by decide)).1⟩

/-- C3 counterexample: the claim says the raised error's kind identifies the
failure category, with `Timeout` distinct from `UpstreamUnreachable`; but the
code throws the very same `Error('Failed to connect to Roblox API')` for a
timed-out request and for a connection that could not be established, so no
caller can tell the two categories apart. -/
theorem timeout_and_unreachable_conflated :
    (fetchFromRobloxAPI .timeout 0 "https://u" none 300 []).result
        = .error "Failed to connect to Roblox API" ∧
      (fetchFromRobloxAPI .connectFailure 0 "https://u" none 300 []).result
        = .error "Failed to connect to Roblox API" :=
  ⟨rfl, rfl⟩

/-- C3 amended: every gateway call that actually performs an outbound request
whose outcome is a failure propagates a thrown error to the caller — never a
substitute value — and the error message is determined by the failure
category as the catch block maps it: a non-2xx response yields the
status-bearing message, a timeout and an unestablished connection both yield
the fixed connection-failure message, and a request setup error yields the
generic request-error message. -/
theorem failing_fetch_raises (net : NetOutcome) (now : Nat) (url : String)
    (ck : Option String) (ttl : Nat) (c : Cache)
    (h : netFails net = true)
    (hcall : (fetchFromRobloxAPI net now url ck ttl c).calls ≠ []) :
    (fetchFromRobloxAPI net now url ck ttl c).result = .error (caughtError net) := by
  unfold fetchFromRobloxAPI at hcall ⊢
  by_cases ht : jsTruthyKey ck = true
  · simp only [ht, if_true] at hcall ⊢
    cases hl : ncLookup c (ck.getD "") now with
    | some v => rw [hl] at hcall; exact absurd rfl hcall
    | none =>
      unfold fetchNetwork
      cases net with
      | success d => simp [netFails] at h
      | httpError s st => rfl
      | timeout => rfl
      | connectFailure => rfl
      | setupError m => rfl
  · simp only [Bool.not_eq_true] at ht
    simp only [ht, Bool.false_eq_true, if_false]
    unfold fetchNetwork
    cases net with
    | success d => simp [netFails] at h
    | httpError s st => rfl
    | timeout => rfl
    | connectFailure => rfl
    | setupError m => rfl

/-- Witness for the amended C3: a 503 response on a cache miss raises the
status-bearing error message. -/
theorem failing_fetch_raises_witness :
    (fetchFromRobloxAPI (.httpError 503 "Service Unavailable") 0 "https://u"
        (some "k") 300 []).result
      = .error (caughtError (.httpError 503 "Service Unavailable")) :=
  failing_fetch_raises (.httpError 503 "Service Unavailable") 0 "https://u"
    (some "k") 300 [] rfl (by 
      intro h
      simp [fetchFromRobloxAPI, fetchNetwork, jsTruthyKey, ncLookup] at h)

lemma jsTruthyKey_of_ne {k : String} (hk : k ≠ "") :
    jsTruthyKey (some k) = true := by
  simp only [jsTruthyKey, Bool.not_eq_true']
  rw [Bool.eq_false_iff]
  intro hT
  exact hk ((String.isEmpty_iff k).1 hT)

/-- C4 counterexample: the claim quantifies over every ttl, but for ttl = 0
node-cache stores the entry with no expiry at all, so a fetch populating the
cache at time 5 with ttl 0 is still served from the cache at time 1000000 —
strictly after t0 + ttl — with zero outbound requests, instead of being
treated as absent and re-fetched. -/
theorem ttl_zero_entry_never_expires :
    fetchFromRobloxAPI (.success (Json.num 2)) 1000000 "https://u" (some "k") 0
        (fetchFromRobloxAPI (.success (Json.num 1)) 5 "https://u" (some "k") 0 []).cache
      = ⟨.ok (Json.num 1),
          (fetchFromRobloxAPI (.success (Json.num 1)) 5 "https://u" (some "k") 0 []).cache,
          []⟩ := rfl

/-- C4 amended: for every positive ttl, a successful fetch for key `k` at
time `t0` that misses the cache stores an entry that is logically absent at
every time strictly after `t0 + ttl` (ttl seconds = ttl*1000 ms), and a call
for the same key at such a time misses and performs a fresh outbound request;
a ttl of 0 is the exception, stored by node-cache with no expiry. -/
theorem expired_entry_refetches (d : Json) (t0 ttl : Nat) (url url2 k : String)
    (net2 : NetOutcome) (ttl2 : Nat) (c : Cache) (t2 : Nat)
    (hk : k ≠ "") (hpos : 0 < ttl) (hmiss : ncLookup c k t0 = none)
    (ht2 : t0 + ttl * 1000 < t2) :
    ncLookup (fetchFromRobloxAPI (.success d) t0 url (some k) ttl c).cache k t2 = none ∧
      (fetchFromRobloxAPI net2 t2 url2 (some k) ttl2
          (fetchFromRobloxAPI (.success d) t0 url (some k) ttl c).cache).calls
        = [⟨url2, 10000, "RobloxAPI/1.0"⟩] := by
  have hc1 : (fetchFromRobloxAPI (.success d) t0 url (some k) ttl c).cache
      = ncSet c k d ttl t0 := by
    unfold fetchFromRobloxAPI
    simp only [jsTruthyKey_of_ne hk, if_true, Option.getD_some, hmiss]
    unfold fetchNetwork
    simp only [jsTruthyKey_of_ne hk, if_true, Option.getD_some]
  have hexp : ncLookup (ncSet c k d ttl t0) k t2 = none := by
    unfold ncSet ncLookup
    have hkk : (k == k) = true := beq_self_eq_true k
    have h0 : (ttl == 0) = false := by
      rw [beq_eq_false_iff_ne]
      omega
    simp only [h0, Bool.false_eq_true, if_false, List.find?_cons, hkk]
    have hlive : entryLive ⟨k, d, t0 + ttl * 1000⟩ t2 = false := by
      simp only [entryLive, Bool.or_eq_false_iff, beq_eq_false_iff_ne,
        decide_eq_false_iff_not]
      omega
    rw [hlive]
    simp
  refine ⟨by rw [hc1]; exact hexp, ?_⟩
  rw [hc1]
  unfold fetchFromRobloxAPI
  simp only [jsTruthyKey_of_ne hk, if_true, Option.getD_some, hexp]
  unfold fetchNetwork
  cases net2 <;> rfl

/-- Witness for the amended C4: ttl 1 s, populate at t0 = 5 ms, probe at
t2 = 7000 ms > 5 + 1000 ms: the entry is absent and the second call performs
its own outbound request. -/
theorem expired_entry_refetches_witness :
    ncLookup (fetchFromRobloxAPI (.success (Json.num 9)) 5 "https://u"
        (some "k") 1 []).cache "k" 7000 = none ∧
      (fetchFromRobloxAPI .timeout 7000 "https://u2" (some "k") 1
          (fetchFromRobloxAPI (.success (Json.num 9)) 5 "https://u"
            (some "k") 1 []).cache).calls
        = [⟨"https://u2", 10000, "RobloxAPI/1.0"⟩] :=
  expired_entry_refetches (Json.num 9) 5 1 "https://u" "https://u2" "k"
    .timeout 1 [] 7000 (by decide) (by decide) rfl (by decide)

/-- C5 counterexample: the claim says a successful miss stores the value with
expiry now + ttl for every ttl, but with ttl = 0 the entry stored at time 5
is still live at time 1000000, where an entry expiring at 5 + 0 would long be
gone: node-cache treats ttl 0 as "no expiry". -/
theorem ttl_zero_entry_not_stamped_now_plus_ttl :
    ncLookup (fetchFromRobloxAPI (.success (Json.num 7)) 5 "https://u"
        (some "k") 0 []).cache "k" 1000000 = some (Json.num 7) := rfl

/-- C5 amended: a gateway call with a truthy cache key that misses the cache
performs exactly one outbound GET to the target with the fixed 10000 ms
timeout and the fixed RobloxAPI/1.0 User-Agent header, whatever the outcome;
when the response succeeds and the ttl is positive, it replaces the entry
under the key with the parsed value, expiry now + ttl (ms: now + ttl*1000),
and returns that same value; a call without the ttl argument uses the default
of 300 seconds; a ttl of 0 instead stores the entry without expiry. -/
theorem miss_fetches_stores_returns (d : Json) (now : Nat) (url k : String)
    (ttl : Nat) (c : Cache)
    (hk : k ≠ "") (hpos : 0 < ttl) (hmiss : ncLookup c k now = none) :
    fetchFromRobloxAPI (.success d) now url (some k) ttl c
        = ⟨.ok d, ⟨k, d, now + ttl * 1000⟩ :: c.filter (fun e => !(e.key == k)),
            [⟨url, 10000, "RobloxAPI/1.0"⟩]⟩ ∧
      (∀ net : NetOutcome,
        (fetchFromRobloxAPI net now url (some k) ttl c).calls
          = [⟨url, 10000, "RobloxAPI/1.0"⟩]) ∧
      fetchDefault (.success d) now url (some k) c
        = fetchFromRobloxAPI (.success d) now url (some k) 300 c := by
  have h0 : (ttl == 0) = false := by
    rw [beq_eq_false_iff_ne]
    omega
  refine ⟨?_, ?_, rfl⟩
  · unfold fetchFromRobloxAPI
    simp only [jsTruthyKey_of_ne hk, if_true, Option.getD_some, hmiss]
    unfold fetchNetwork
    simp only [jsTruthyKey_of_ne hk, if_true, Option.getD_some, ncSet, h0,
      Bool.false_eq_true, if_false]
  · intro net
    unfold fetchFromRobloxAPI
    simp only [jsTruthyKey_of_ne hk, if_true, Option.getD_some, hmiss]
    unfold fetchNetwork
    cases net <;> rfl

/-- Witness for the amended C5 at ttl 2 s, now 100 ms, against a cache that
holds an unrelated key. -/
theorem miss_fetches_stores_returns_witness :
    fetchFromRobloxAPI (.success (Json.str "v")) 100 "https://u" (some "k") 2
        [⟨"other", Json.num 3, 90000⟩]
      = ⟨.ok (Json.str "v"),
          ⟨"k", Json.str "v", 2100⟩ :: [⟨"other", Json.num 3, 90000⟩].filter
            (fun e => !(e.key == "k")),
          [⟨"https://u", 10000, "RobloxAPI/1.0"⟩]⟩ :=
  (miss_fetches_stores_returns (Json.str "v") 100 "https://u" "k" 2
    [⟨"other", Json.num 3, 90000⟩] (by decide) (by decide) rfl).1

lemma fetch_none_eq (net : NetOutcome) (now : Nat) (url : String) (ttl : Nat)
    (c : Cache) :
    fetchFromRobloxAPI net now url none ttl c
      = ⟨axiosOutcome net, c, [⟨url, 10000, "RobloxAPI/1.0"⟩]⟩ := by
  unfold fetchFromRobloxAPI fetchNetwork
  cases net <;> rfl

lemma axiosOutcome_of_fails {n : NetOutcome} (h : netFails n = true) :
    axiosOutcome n = .error (caughtError n) := by
  cases n with
  | success d => simp [netFails] at h
  | httpError s st => rfl
  | timeout => rfl
  | connectFailure => rfl
  | setupError m => rfl

lemma jsAccess_of_ne_null {u : Json} (hu : u ≠ Json.null) (f : String) :
    jsAccess (some u) f = .ok (jsField u f) := by
  cases u with
  | null => exact absurd rfl hu
  | bool b => rfl
  | num n => rfl
  | str s => rfl
  | arr elts => rfl
  | obj fields => rfl

lemma jsField_mkObj (l : List (String × Option Json)) (f : String) :
    jsField (mkObj l) f = lookupDrop l f := by
  induction l with
  | nil => rfl
  | cons p rest ih =>
    obtain ⟨k, v⟩ := p
    cases v with
    | none =>
      show jsField (mkObj rest) f = lookupDrop ((k, none) :: rest) f
      rw [ih]
      simp [lookupDrop]
    | some x =>
      by_cases hk : (k == f) = true
      · simp [mkObj, jsField, lookupDrop, hk, List.find?_cons]
      · simp only [Bool.not_eq_true] at hk
        simp only [mkObj, jsField, List.filterMap_cons, Option.map_some',
          List.find?_cons, hk, lookupDrop, Bool.false_and, Bool.false_eq_true,
          if_false] at ih ⊢
        exact ih

lemma playerKey_ne (userId : String) : ("player_" ++ userId) ≠ "" := by
  intro h
  have hlen := congrArg String.length h
  rw [String.length_append] at hlen
  have h7 : "player_".length = 7 := rfl
  have h0 : ("" : String).length = 0 := rfl
  omega

lemma exceptBind_ok {e a b : Type} (x : a) (f : a → Except e b) :
    (Except.ok x >>= f) = f x := rfl

lemma exceptPure_bind {e a b : Type} (x : a) (f : a → Except e b) :
    ((pure x : Except e a) >>= f) = f x := rfl

lemma buildPlayerBody_aux_failed (userId : String) (u : Json)
    (hu : u ≠ Json.null) (mF mA : String) :
    buildPlayerBody userId u (.error mF) (.error mA)
      = .ok (mkObj
          [("userId", some (.num (jsParseInt userId))),
           ("username",
             if jsTruthy (jsField u "displayName") then jsField u "displayName"
             else jsField u "name"),
           ("displayName", jsField u "displayName"),
           ("description",
             if jsTruthy (jsField u "description") then jsField u "description"
             else some (.str "")),
           ("created", jsField u "created"),
           ("isBanned",
             if jsTruthy (jsField u "isBanned") then jsField u "isBanned"
             else some (.bool false)),
           ("friendsCount", some (.num 0)),
           ("avatarThumbnail", some (.str (defaultThumb userId))),
           ("hasVerifiedBadge",
             if jsTruthy (jsField u "hasVerifiedBadge")
             then jsField u "hasVerifiedBadge"
             else some (.bool false))]) := by
  unfold buildPlayerBody
  simp only [jsAccess_of_ne_null hu, exceptPure_bind, exceptBind_ok]
  by_cases hdn : jsTruthy (jsField u "displayName") = true
  · rw [if_pos hdn, if_pos hdn]
    rfl
  · rw [if_neg hdn, if_neg hdn]
    rfl

/-- C8: after validation, the GET /asset/:assetId and GET /leaderboard/:gameId
handlers perform no outbound HTTP call and neither read nor write the cache
table; each sends a success envelope whose data is synthesized locally from
the path parameter, the clock and the random draws. -/
theorem asset_leaderboard_handlers_local (assetId gameId : String)
    (limitQ : Option Nat) (r1 r2 : Nat → ℚ) (nowIso : String) (c c2 : Cache) :
    assetHandler assetId r1 nowIso c
        = ⟨.ok (assetBody assetId r1 nowIso) "Success" nowIso, c, [], false⟩ ∧
      leaderboardHandler gameId limitQ r2 nowIso c2
        = ⟨.ok (leaderboardBody gameId limitQ r2 nowIso) "Success" nowIso,
            c2, [], false⟩ :=
  ⟨rfl, rfl⟩

/-- C9 counterexample: with the main fetch succeeding and both auxiliary
fetches fulfilled — no fetch failure at all — an avatar payload of unexpected
shape (the decoded body "oops", whose data member is undefined) makes
`avatarData.value.data.length` throw a TypeError inside the inner try, and
the handler answers with the mock payload: the mock-data fallback fires
although the main user-info fetch did not fail. -/
theorem fulfilled_malformed_aux_triggers_mock :
    (playerHandler (.success (Json.obj [("name", Json.str "Alice")]))
        (.success (Json.num 7)) (.success (Json.str "oops"))
        0 "1" 0 "T" []).usedFallback = true ∧
      netFails (.success (Json.obj [("name", Json.str "Alice")])) = false ∧
      netFails (.success (Json.num 7)) = false ∧
      netFails (.success (Json.str "oops")) = false :=
  ⟨rfl, rfl, rfl, rfl⟩

/-- C9 amended: when the main user-info fetch misses the cache and succeeds
with a non-null decoded body, and both auxiliary fetches fail (rejected
promises), the handler neither fails the request nor falls back to mock data:
it sends a success envelope built from the fetched user info, substituting
friendsCount 0 and the default thumbnail URL. The mock fallback can, however,
also fire without any fetch failing, when a fulfilled auxiliary value has an
unexpected shape (see the counterexample). -/
theorem aux_failure_substitutes_defaults (u : Json) (netF netA : NetOutcome)
    (now : Nat) (userId : String) (randQ : ℚ) (nowIso : String) (c : Cache)
    (hu : u ≠ Json.null) (hF : netFails netF = true) (hA : netFails netA = true)
    (hmiss : ncLookup c ("player_" ++ userId) now = none) :
    (playerHandler (.success u) netF netA now userId randQ nowIso c).usedFallback
        = false ∧
      ∃ d,
        (playerHandler (.success u) netF netA now userId randQ nowIso c).response
            = ServerReply.ok d "Success" nowIso ∧
          jsField d "friendsCount" = some (Json.num 0) ∧
          jsField d "avatarThumbnail" = some (Json.str (defaultThumb userId)) := by
  have hkey := jsTruthyKey_of_ne (playerKey_ne userId)
  have hr1 : fetchFromRobloxAPI (.success u) now
      ("https://users.roblox.com/v1/users/" ++ userId)
      (some ("player_" ++ userId)) 300 c
      = ⟨.ok u, ncSet c ("player_" ++ userId) u 300 now,
          [⟨"https://users.roblox.com/v1/users/" ++ userId, 10000,
            "RobloxAPI/1.0"⟩]⟩ := by
    unfold fetchFromRobloxAPI
    simp only [hkey, if_true, Option.getD_some, hmiss]
    unfold fetchNetwork
    simp only [hkey, if_true, Option.getD_some]
  simp only [playerHandler, hr1, fetch_none_eq, axiosOutcome_of_fails hF,
    axiosOutcome_of_fails hA, buildPlayerBody_aux_failed userId u hu]
  refine ⟨trivial, ⟨_, rfl, ?_, ?_⟩⟩
  · rw [jsField_mkObj]
    rfl
  · rw [jsField_mkObj]
    rfl

/-- Witness for the amended C9: user 42, both auxiliary fetches failing. -/
theorem aux_failure_substitutes_defaults_witness :
    (playerHandler (.success (Json.obj [("name", Json.str "Bob")])) .timeout
        .connectFailure 0 "42" 0 "T" []).usedFallback = false ∧
      ∃ d,
        (playerHandler (.success (Json.obj [("name", Json.str "Bob")]))
            .timeout .connectFailure 0 "42" 0 "T" []).response
            = ServerReply.ok d "Success" "T" ∧
          jsField d "friendsCount" = some (Json.num 0) ∧
          jsField d "avatarThumbnail" = some (Json.str (defaultThumb "42")) :=
  aux_failure_substitutes_defaults (Json.obj [("name", Json.str "Bob")])
    .timeout .connectFailure 0 "42" 0 "T" [] (fun h => Json.noConfusion h)
    rfl rfl rfl

/-- C10 counterexample: the validation-failure body (and likewise the
auth-failure body) carries success, error and code but no timestamp field,
so not every server response body contains a string timestamp. -/
theorem validation_reply_lacks_timestamp :
    bodyGet (replyBody (.validationFailure (Json.arr []))) "success"
        = some (Json.bool false) ∧
      bodyGet (replyBody (.validationFailure (Json.arr []))) "timestamp" = none ∧
      bodyGet (replyBody .authFailure) "timestamp" = none :=
  ⟨rfl, rfl, rfl⟩

/-- C10 amended: every response body except the rate-limiter's contains a
boolean success field; the sendResponse envelope also carries message, data
and a string timestamp, and the sendError envelope (used by every route
error, the 404 handler and the global error handler) also carries error, code
and a string timestamp; the 401 auth-failure and 400 validation-failure
bodies carry success=false, error and code but no timestamp; the
rate-limiter body carries only error and code. -/
theorem reply_envelope_shape (r : ServerReply) : EnvelopeSpec r := by
  cases r with
  | ok data message now => exact ⟨rfl, rfl, rfl, rfl⟩
  | err status message code details now =>
    cases details with
    | none => exact ⟨rfl, rfl, rfl, rfl⟩
    | some dj => exact ⟨rfl, rfl, rfl, rfl⟩
  | authFailure => exact ⟨rfl, rfl, rfl, rfl⟩
  | validationFailure details => exact ⟨rfl, rfl, rfl, rfl⟩
  | rateLimited => exact ⟨rfl, rfl, rfl, rfl⟩
